/-
Verification of the Inter trading-signal repository.

Shallow embedding of the core components:
  * signal_manager.py  — rate-limited signal store (add_signal, _can_add_signal,
                         _save_signals, _load_signals)
  * trading_engine.py  — signal scorer (generate_binary_trading_signal),
                         market-data cache (get_market_data)
  * technical_indicators.py — the indicator library

Conventions: Python floats are modelled by ℚ; a pandas "NaN"/undefined entry
is modelled by `none` in `Option ℚ`; Python exceptions are modelled by
`Except String`; `datetime` instants are modelled by integer seconds (store)
or by an explicit calendar structure (persistence).
-/
import Mathlib

/-! ## Rate-limited signal store (signal_manager.py) -/

/-- A stored signal record as kept in `SignalManager.signals`.  The
`timestamp` field is `Option Int` (seconds): `none` models a record whose
`'timestamp'` key is missing, so that reading it in Python raises `KeyError`
(the fail-open path of `_can_add_signal`). -/
structure StoredSignal where
  timestamp  : Option Int
  pair       : String
  direction  : String
  confidence : Int
deriving Repr, DecidableEq

namespace SignalStore

/-- `self.max_signals_per_hour = 3` -/
def maxSignalsPerHour : Nat := 3

/-- `timedelta(hours=1)` in seconds. -/
def oneHour : Int := 3600

/-- The signals of `self.signals` whose `'timestamp'` is strictly later than
`one_hour_ago` (`signal['timestamp'] > one_hour_ago`). -/
def recentSignals (now : Int) (signals : List StoredSignal) : List StoredSignal :=
  signals.filter (fun s => s.timestamp.getD 0 > now - oneHour)

/-- `_can_add_signal`: counts stored signals inside the trailing hour; if any
stored record has no `'timestamp'` key the comprehension raises `KeyError`,
the handler prints and returns `True` (fail-open). -/
def canAddSignal (now : Int) (signals : List StoredSignal) : Bool :=
  if signals.all (fun s => s.timestamp.isSome) then
    decide ((recentSignals now signals).length < maxSignalsPerHour)
  else
    true

/-- `add_signal`: rejects when `_can_add_signal` is false; otherwise inserts
the new signal at position 0 and truncates the history to 100 entries.
Returns the Python return value paired with the updated `self.signals`. -/
def addSignal (now : Int) (signals : List StoredSignal) (sig : StoredSignal) :
    Bool × List StoredSignal :=
  if canAddSignal now signals then
    (true, (sig :: signals).take 100)
  else
    (false, signals)

/-- Repeated `add_signal` calls, each at its own current time, threading the
stored history. -/
def runAdds (adds : List (Int × StoredSignal)) (init : List StoredSignal) :
    List StoredSignal :=
  adds.foldl (fun st p => (addSignal p.1 st p.2).2) init

/-- A plain well-formed signal whose timestamp is hour `k` (seconds
`3600 * k`), used to exercise the store on concrete runs. -/
def mkSig (k : Nat) : StoredSignal :=
  { timestamp := some (3600 * (k : Int)), pair := "EUR/USD",
    direction := "BUY", confidence := 90 }

/-- 105 insertions spaced one hour apart (so the rate limiter accepts each). -/
def adds105 : List (Int × StoredSignal) :=
  (List.range 105).map (fun k => (3600 * (Int.ofNat k), mkSig k))

end SignalStore

/-! ## Signal scorer (trading_engine.py, generate_binary_trading_signal) -/

inductive Direction where
  | buy
  | sell
deriving Repr, DecidableEq

namespace Engine

/-- The candle frame passed to the scorer.  `close` and `volume` are
oldest-first series of the `Close` / `Volume` columns; `volume = none`
models a frame without a `Volume` column, so that `data['Volume']` raises
`KeyError`.  `symbol` models `data.attrs.get('symbol', 'UNKNOWN')`. -/
structure MarketData where
  close  : List ℚ
  volume : Option (List ℚ)
  symbol : String
deriving Repr, DecidableEq

/-- The indicator dictionary built by `calculate_indicators`.  Each channel
is the series stored under the corresponding key; a missing key behaves
exactly like an empty series in the scorer (`indicators.get(k, pd.Series())`),
so both are modelled by `[]`.  `isEmpty` models the truthiness test
`not indicators` on the dictionary itself. -/
structure IndicatorSnapshot where
  isEmpty    : Bool
  rsi        : List ℚ
  macd       : List ℚ
  macdSignal : List ℚ
  maShort    : List ℚ
  maLong     : List ℚ
  bbUpper    : List ℚ
  bbLower    : List ℚ
  bbPosition : List ℚ
deriving Repr, DecidableEq

/-- `series.iloc[-1] if not series.empty else default`. -/
def lastD (xs : List ℚ) (d : ℚ) : ℚ :=
  (xs.getLast?).getD d

/-- `series.iloc[-2] if len(series) > 1 else default`. -/
def penultD (xs : List ℚ) (d : ℚ) : ℚ :=
  if 1 < xs.length then xs.getD (xs.length - 2) 0 else d

/-- `series.tail(k)` — the last `k` elements. -/
def tailK (k : Nat) (xs : List ℚ) : List ℚ :=
  xs.drop (xs.length - k)

/-- `series.mean()` of a nonempty list (every use below is on a nonempty
tail of a ≥50-bar series; pandas would give NaN on an empty one). -/
def meanQ (xs : List ℚ) : ℚ :=
  xs.sum / (xs.length : ℚ)

/-- `analyze_short_term_momentum`: 5-bar percent change plus 3-bar/10-bar
volume ratio.  Divisions that would produce a non-finite float (zero
denominators) are modelled by ℚ division (`x / 0 = 0`); no property proved
below depends on that case. -/
def analyzeShortTermMomentum (data : MarketData) : String × ℚ :=
  if data.close.length < 10 then ("Neutral", 0)
  else
    let recent := tailK 5 data.close
    let priceChange := (lastD recent 0 - (recent.headI)) / recent.headI * 100
    let volumeRatio :=
      match data.volume with
      | some vs =>
          let recentVolume := meanQ (tailK 3 vs)
          let avgVolume := meanQ (tailK 10 vs)
          if avgVolume > 0 then recentVolume / avgVolume else 1
      | none => 1
    if priceChange > 0.02 ∧ volumeRatio > 1.2 then
      ("Strong_Bullish", min (|priceChange| * volumeRatio) 100)
    else if priceChange < -0.02 ∧ volumeRatio > 1.2 then
      ("Strong_Bearish", min (|priceChange| * volumeRatio) 100)
    else if priceChange > 0.01 then
      ("Bullish", min (|priceChange| * 50) 100)
    else if priceChange < -0.01 then
      ("Bearish", min (|priceChange| * 50) 100)
    else
      ("Neutral", 0)

/-- The per-bar values the rule battery reads, extracted exactly as in
lines 102–120 and 175–176 / 207–208 of trading_engine.py (series access
with defaults for empty / length-1 series). -/
structure Vals where
  latestClose    : ℚ
  prevClose      : ℚ
  rsi            : ℚ
  macd           : ℚ
  macdSignal     : ℚ
  maShort        : ℚ
  maLong         : ℚ
  prevMaShort    : ℚ
  prevMaLong     : ℚ
  bbUpper        : ℚ
  bbLower        : ℚ
  bbPosition     : ℚ
  prevMacd       : ℚ
  prevMacdSignal : ℚ
  momentum       : String
deriving Repr, DecidableEq

def extractVals (data : MarketData) (ind : IndicatorSnapshot) : Vals :=
  let latestClose := lastD data.close 0
  let prevClose := if 1 < data.close.length
    then data.close.getD (data.close.length - 2) 0 else latestClose
  let rsi := lastD ind.rsi 50
  let macd := lastD ind.macd 0
  let macdSignal := lastD ind.macdSignal 0
  let maShort := lastD ind.maShort latestClose
  let maLong := lastD ind.maLong latestClose
  { latestClose := latestClose
    prevClose := prevClose
    rsi := rsi
    macd := macd
    macdSignal := macdSignal
    maShort := maShort
    maLong := maLong
    prevMaShort := penultD ind.maShort maShort
    prevMaLong := penultD ind.maLong maLong
    bbUpper := lastD ind.bbUpper latestClose
    bbLower := lastD ind.bbLower latestClose
    bbPosition := lastD ind.bbPosition 0.5
    prevMacd := penultD ind.macd macd
    prevMacdSignal := penultD ind.macdSignal macdSignal
    momentum := (analyzeShortTermMomentum data).1 }

/-- The mutable accumulator of the rule battery: `signal_strength`,
`signal_direction`, `technical_reasons`, `entry_signals`. -/
structure ScoreState where
  strength  : Nat
  direction : Option Direction
  reasons   : List String
  entries   : List String
deriving Repr, DecidableEq

def initialState : ScoreState := ⟨0, none, [], []⟩

/-- One triggered rule: add the weight, set the direction, append the
reason and entry strings. -/
def fire (st : ScoreState) (w : Nat) (d : Direction) (r e : String) : ScoreState :=
  { strength := st.strength + w
    direction := some d
    reasons := st.reasons ++ [r]
    entries := st.entries ++ [e] }

/-- Rule 1 — RSI thresholds (sets the direction unconditionally; it runs
first, when the direction is still unset). -/
def rsiBlock (v : Vals) (st : ScoreState) : ScoreState :=
  if v.rsi < 20 then
    fire st 40 .buy "RSI extreme oversold reversal" "Strong reversal setup"
  else if v.rsi < 30 then
    fire st 25 .buy "RSI oversold reversal" "Reversal setup"
  else if v.rsi > 80 then
    fire st 40 .sell "RSI extreme overbought reversal" "Strong reversal setup"
  else if v.rsi > 70 then
    fire st 25 .sell "RSI overbought reversal" "Reversal setup"
  else st

/-- Rule 2 — Bollinger breakout / bounce.  Note: these four branches assign
`signal_direction` without checking the already-committed direction. -/
def bbBlock (v : Vals) (st : ScoreState) : ScoreState :=
  if v.latestClose > v.bbUpper ∧ v.prevClose ≤ v.bbUpper then
    fire st 35 .buy "Bollinger Band breakout" "Fresh breakout confirmed"
  else if v.latestClose < v.bbLower ∧ v.prevClose ≥ v.bbLower then
    fire st 35 .sell "Bollinger Band breakdown" "Fresh breakdown confirmed"
  else if v.bbPosition < 0.05 ∧ v.latestClose > v.prevClose then
    fire st 30 .buy "Bollinger Band bounce up" "Support bounce confirmed"
  else if v.bbPosition > 0.95 ∧ v.latestClose < v.prevClose then
    fire st 30 .sell "Bollinger Band bounce down" "Resistance bounce confirmed"
  else st

/-- `signal_direction == "BUY" or signal_direction is None` (resp. SELL). -/
def agrees (st : ScoreState) (d : Direction) : Prop :=
  st.direction = some d ∨ st.direction = none

instance (st : ScoreState) (d : Direction) : Decidable (agrees st d) := by
  unfold agrees; infer_instance

/-- Rule 3 — moving-average crosses and trend continuation (each branch
guarded by the committed direction). -/
def maBlock (v : Vals) (st : ScoreState) : ScoreState :=
  if v.maShort > v.maLong ∧ v.prevMaShort ≤ v.prevMaLong then
    if agrees st .buy then
      fire st 25 .buy "Fresh MA bullish cross" "Trend change confirmed"
    else st
  else if v.maShort < v.maLong ∧ v.prevMaShort ≥ v.prevMaLong then
    if agrees st .sell then
      fire st 25 .sell "Fresh MA bearish cross" "Trend change confirmed"
    else st
  else if v.maShort > v.maLong ∧ v.latestClose > v.maShort ∧ v.prevClose ≤ v.maShort then
    if agrees st .buy then
      fire st 15 .buy "MA bullish breakout" "Trend continuation"
    else st
  else if v.maShort < v.maLong ∧ v.latestClose < v.maShort ∧ v.prevClose ≥ v.maShort then
    if agrees st .sell then
      fire st 15 .sell "MA bearish breakdown" "Trend continuation"
    else st
  else st

/-- Rule 4 — MACD signal-line crosses (guarded by the committed direction). -/
def macdBlock (v : Vals) (st : ScoreState) : ScoreState :=
  if v.macd > v.macdSignal ∧ v.prevMacd ≤ v.prevMacdSignal then
    if agrees st .buy then
      fire st 20 .buy "MACD bullish signal cross" "Momentum shift up"
    else st
  else if v.macd < v.macdSignal ∧ v.prevMacd ≥ v.prevMacdSignal then
    if agrees st .sell then
      fire st 20 .sell "MACD bearish signal cross" "Momentum shift down"
    else st
  else st

/-- Rule 5 — short-term momentum confirmation (guarded by the committed
direction). -/
def momentumBlock (v : Vals) (st : ScoreState) : ScoreState :=
  if v.momentum = "Strong_Bullish" then
    if agrees st .buy then
      fire st 15 .buy "Strong bullish momentum" "Price acceleration up"
    else st
  else if v.momentum = "Strong_Bearish" then
    if agrees st .sell then
      fire st 15 .sell "Strong bearish momentum" "Price acceleration down"
    else st
  else st

/-- Rule 6 — volume surge (direction-agnostic: only adds weight). -/
def volumeBlock (recentVolume avgVolume : ℚ) (st : ScoreState) : ScoreState :=
  if recentVolume > avgVolume * 1.8 then
    { st with strength := st.strength + 20
              reasons := st.reasons ++ ["Exceptional volume surge"]
              entries := st.entries ++ ["High volume confirmation"] }
  else if recentVolume > avgVolume * 1.3 then
    { st with strength := st.strength + 10
              reasons := st.reasons ++ ["Above average volume"] }
  else st

/-- Rule 7 — news sentiment.  `none` models a sentiment fetch that raised
(the inner `try`/`except: pass`). -/
def newsBlock (sentiment : Option ℚ) (st : ScoreState) : ScoreState :=
  match sentiment with
  | none => st
  | some ns =>
      if |ns| > 0.3 then
        if (ns > 0 ∧ st.direction = some .buy) ∨ (ns < 0 ∧ st.direction = some .sell) then
          { st with strength := st.strength + 15
                    reasons := st.reasons ++ ["Strong news alignment"]
                    entries := st.entries ++ ["News sentiment supports trade"] }
        else if st.direction = none then
          { st with direction := some (if ns > 0 then .buy else .sell)
                    strength := st.strength + 10
                    reasons := st.reasons ++ ["News-driven signal"] }
        else st
      else st

/-- `min_confirmations = 2 if timeframe == "M1" else 1`. -/
def minConfirmations (timeframe : String) : Nat :=
  if timeframe = "M1" then 2 else 1

/-- The returned signal record (wall-clock `timestamp` and the derived
`formatted_signal` string, both mere echoes of other fields and the clock,
are left out of the model). -/
structure TradingSignal where
  pair              : String
  direction         : Direction
  confidence        : Nat
  reason            : String
  entryTiming       : String
  timeframeLabel    : String
  expiryMinutes     : Nat
  entryDelaySeconds : Nat
  rsi               : ℚ
  macd              : ℚ
  price             : ℚ
  sessionVolatility : String
deriving Repr, DecidableEq

/-- `symbol.replace('=X', '')`: drop every (non-overlapping, left-to-right)
occurrence of the two-character pattern `=X`. -/
def stripEqX : List Char → List Char
  | [] => []
  | '=' :: 'X' :: rest => stripEqX rest
  | c :: rest => c :: stripEqX rest

/-- Currency-pair formatting of lines 277–285. -/
def formatPair (symbol : String) : String :=
  let s := stripEqX symbol.data
  if 6 ≤ s.length then
    String.mk (s.take 3) ++ "/" ++ String.mk ((s.drop 3).take 3)
  else
    String.mk s

/-- Expiry selection of lines 287–293. -/
def expiryFor (timeframe sessionVolatility : String) : Nat :=
  if timeframe = "1m" then (if sessionVolatility = "High" then 1 else 2)
  else if timeframe = "5m" then (if sessionVolatility = "High" then 5 else 10)
  else 15

/-- Rules 1–5 composed in evaluation order (lines 131–237). -/
def mainRules (v : Vals) : ScoreState :=
  momentumBlock v (macdBlock v (maBlock v (bbBlock v (rsiBlock v initialState))))

/-- Rules 1–7 composed in evaluation order, for a frame with a volume
column (`recentVolume`/`avgVolume` are the 3-bar and 20-bar mean volumes
of line 241–242). -/
def scoreBattery (v : Vals) (recentVolume avgVolume : ℚ)
    (sentiment : Option ℚ) : ScoreState :=
  newsBlock sentiment (volumeBlock recentVolume avgVolume (mainRules v))

/-- The acceptance test and signal construction of lines 266–321. -/
def buildSignal (data : MarketData) (v : Vals) (st6 : ScoreState)
    (confidenceThreshold : Nat) (timeframe sessionVolatility : String)
    (entryDelay : Nat) : Option TradingSignal :=
  let confidence := min st6.strength 100
  match st6.direction with
  | none => none
  | some dir =>
    if confidenceThreshold ≤ confidence ∧
        minConfirmations timeframe ≤ st6.reasons.length then
      some
        { pair := formatPair data.symbol
          direction := dir
          confidence := confidence
          reason := String.intercalate " + " (st6.reasons.take 3)
          entryTiming := String.intercalate " + " (st6.entries.take 2)
          timeframeLabel :=
            "M" ++ toString (expiryFor timeframe sessionVolatility)
          expiryMinutes := expiryFor timeframe sessionVolatility
          entryDelaySeconds := entryDelay
          rsi := v.rsi
          macd := v.macd
          price := v.latestClose
          sessionVolatility := sessionVolatility }
    else none

/-- The body of `generate_binary_trading_signal` (the code inside its `try`).
`sessionVolatility` is the tier returned by `get_market_session` (wall-clock
dependent), `sentiment` the news fetch's outcome, and `entryDelay` the value
sampled by `_calculate_optimal_entry_timing` (randomized); all three enter as
parameters.  The single raise point reachable past the input guard is
`data['Volume']` on a frame without a volume column (line 241; the guard
`len(data) > 20` there is always true once ≥50 bars passed the entry
check). -/
def generateBodyE (dataOpt : Option MarketData) (ind : IndicatorSnapshot)
    (confidenceThreshold : Nat) (timeframe : String)
    (sessionVolatility : String) (sentiment : Option ℚ) (entryDelay : Nat) :
    Except String (Option TradingSignal) :=
  match dataOpt with
  | none => .ok none
  | some data =>
    if data.close.isEmpty ∨ ind.isEmpty ∨ data.close.length < 50 then .ok none
    else
      let v := extractVals data ind
      if 20 < data.close.length then
        match data.volume with
        | none => .error "KeyError: Volume"
        | some vs =>
            .ok (buildSignal data v
              (scoreBattery v (meanQ (tailK 3 vs)) (meanQ (tailK 20 vs)) sentiment)
              confidenceThreshold timeframe sessionVolatility entryDelay)
      else
        .ok (buildSignal data v (newsBlock sentiment (mainRules v))
          confidenceThreshold timeframe sessionVolatility entryDelay)

/-- `generate_binary_trading_signal`: the whole body is wrapped in
`try ... except ... return None`. -/
def generateBinaryTradingSignal (dataOpt : Option MarketData)
    (ind : IndicatorSnapshot) (confidenceThreshold : Nat) (timeframe : String)
    (sessionVolatility : String) (sentiment : Option ℚ) (entryDelay : Nat) :
    Option TradingSignal :=
  match generateBodyE dataOpt ind confidenceThreshold timeframe
      sessionVolatility sentiment entryDelay with
  | .ok r => r
  | .error _ => none

end Engine

/-! ## Market-data cache (trading_engine.py, get_market_data) -/

namespace Cache

/-- `self.cache_timeout = 60`. -/
def cacheTimeout : Nat := 60

/-- Python `timedelta.seconds` of a non-negative elapsed time given in
microseconds: after normalization to `(days, seconds, microseconds)` the
`seconds` component is the whole-second part modulo one day — not the total
elapsed seconds. -/
def timedeltaSeconds (elapsedUs : Nat) : Nat :=
  elapsedUs / 1000000 % 86400

/-- The freshness test of line 26:
`(current_time - cache_time).seconds < self.cache_timeout`. -/
def cacheFresh (elapsedUs : Nat) : Bool :=
  timedeltaSeconds elapsedUs < cacheTimeout

/-- The cache path of `get_market_data` for one key, over wall-clock times in
microseconds.  `entry` is `self.cache[cache_key]` if the key is present
(data paired with its storage time), `fetched` the frame the provider would
return on a fresh fetch (`none` = empty frame).  Result: the returned data,
the updated cache entry, and whether a network fetch happened. -/
def getMarketData {α : Type} (entry : Option (α × Nat)) (nowUs : Nat)
    (fetched : Option α) : Option α × Option (α × Nat) × Bool :=
  match entry with
  | some (cacheData, cacheTime) =>
      if cacheFresh (nowUs - cacheTime) then (some cacheData, entry, false)
      else
        match fetched with
        | none => (none, entry, true)
        | some d => (some d, some (d, nowUs), true)
  | none =>
      match fetched with
      | none => (none, entry, true)
      | some d => (some d, some (d, nowUs), true)

end Cache

/-! ## Indicator library (technical_indicators.py)

A pandas float series is modelled by `List (Option ℚ)`; `none` stands for
an undefined entry (NaN, and the non-finite values arising from zero
denominators — only lengths and error paths are proved about, never the
numeric value of an entry). -/

namespace Indicators

def Series := List (Option ℚ)

instance : DecidableEq Series := by
  unfold Series; infer_instance

/-- Element lookup (`none` past the end, which never happens in the
index-driven definitions below). -/
def at? (xs : Series) (i : Nat) : Option ℚ :=
  (List.get? xs i).getD none

/-- Build a series of length `n` from a per-index formula; all indicator
outputs below are of this shape, which makes index alignment explicit. -/
def seriesIdx (n : Nat) (f : Nat → Option ℚ) : Series :=
  (List.range n).map f

/-- All-NaN series on the index of `xs`:
`pd.Series(index=..., dtype=float)`. -/
def undefinedLike (xs : Series) : Series :=
  List.replicate xs.length (none : Option ℚ)

/-- Collect a window of values when every entry is defined. -/
def optList : Series → Option (List ℚ)
  | [] => some []
  | none :: _ => none
  | some x :: rest => (optList rest).map (fun l => x :: l)

/-- `xs.take (i+1) |>.drop (i+1-period)` — the rolling window ending at
index `i`. -/
def window (period i : Nat) (xs : Series) : Series :=
  (xs.take (i + 1)).drop (i + 1 - period)

/-- Generic rolling aggregation with the pandas default
`min_periods = window`: undefined during warm-up and whenever the window
holds an undefined entry. -/
def rollingAgg (f : List ℚ → Option ℚ) (period : Nat) (xs : Series) : Series :=
  seriesIdx xs.length (fun i =>
    if i + 1 < period ∨ period = 0 then none
    else
      match optList (window period i xs) with
      | some vals => f vals
      | none => none)

def listSum (vs : List ℚ) : ℚ := vs.foldl (· + ·) 0

def listMean (vs : List ℚ) : ℚ := listSum vs / (vs.length : ℚ)

/-- `rolling(window=period).mean()`. -/
def rollingMean (period : Nat) (xs : Series) : Series :=
  rollingAgg (fun vs => some (listMean vs)) period xs

/-- Computable stand-in for the square root on ℚ
(`sqrt(num/den) = sqrt(num*den)/den` up to integer rounding); float sqrt is
likewise inexact and no property below depends on the returned value. -/
def ratSqrt (q : ℚ) : ℚ :=
  if q ≤ 0 then 0 else (Nat.sqrt (q.num.toNat * q.den) : ℚ) / (q.den : ℚ)

/-- Sample standard deviation (pandas `ddof=1`); undefined on a
one-element window (0/0). -/
def listStd (vs : List ℚ) : Option ℚ :=
  if vs.length ≤ 1 then none
  else
    let m := listMean vs
    some (ratSqrt (listSum (vs.map (fun v => (v - m) ^ 2)) / ((vs.length : ℚ) - 1)))

/-- `rolling(window=period).std()`. -/
def rollingStd (period : Nat) (xs : Series) : Series :=
  rollingAgg listStd period xs

def listMin : List ℚ → Option ℚ
  | [] => none
  | v :: rest => match listMin rest with
    | none => some v
    | some w => some (min v w)

def listMax : List ℚ → Option ℚ
  | [] => none
  | v :: rest => match listMax rest with
    | none => some v
    | some w => some (max v w)

/-- `rolling(window=period).min()`. -/
def rollingMin (period : Nat) (xs : Series) : Series :=
  rollingAgg listMin period xs

/-- `rolling(window=period).max()`. -/
def rollingMax (period : Nat) (xs : Series) : Series :=
  rollingAgg listMax period xs

/-- NaN-propagating binary operation on aligned series. -/
def zipO (f : ℚ → ℚ → ℚ) (a b : Series) : Series :=
  seriesIdx a.length (fun i =>
    match at? a i, at? b i with
    | some x, some y => some (f x y)
    | _, _ => none)

/-- NaN-propagating unary operation. -/
def mapO (f : ℚ → ℚ) (a : Series) : Series :=
  seriesIdx a.length (fun i => (at? a i).map f)

/-- Division; a zero denominator yields a non-finite float, modelled as
undefined. -/
def divO (a b : Series) : Series :=
  seriesIdx a.length (fun i =>
    match at? a i, at? b i with
    | some x, some y => if y = 0 then none else some (x / y)
    | _, _ => none)

/-- `series.diff()`. -/
def diffO (xs : Series) : Series :=
  seriesIdx xs.length (fun i =>
    if i = 0 then none
    else
      match at? xs i, at? xs (i - 1) with
      | some x, some y => some (x - y)
      | _, _ => none)

/-- `series.shift(k)` for `k ≥ 0`. -/
def shiftO (k : Nat) (xs : Series) : Series :=
  seriesIdx xs.length (fun i => if i < k then none else at? xs (i - k))

/-- `ewm(span=span).mean()` with the pandas defaults
(`adjust=True`, `ignore_na=False`): at index `t`, the
`(1-α)^(t-i)`-weighted mean of the defined entries at `i ≤ t`, with
`α = 2/(span+1)`; undefined while no entry was defined. -/
def ewmMean (span : Nat) (xs : Series) : Series :=
  let α : ℚ := 2 / ((span : ℚ) + 1)
  seriesIdx xs.length (fun t =>
    let terms := (List.range (t + 1)).filterMap (fun i =>
      (at? xs i).map (fun x => ((1 - α) ^ (t - i), x)))
    let den := listSum (terms.map Prod.fst)
    if den = 0 then none
    else some (listSum (terms.map (fun p => p.1 * p.2)) / den))

/-- `calculate_sma`.  Its `try` body cannot raise on a series input
(a rolling window of 0 yields an all-NaN column rather than an error, the
same observable result as the handler). -/
def calculate_sma (data : Series) (period : Nat) : Series :=
  rollingMean period data

/-- The `try` body of `calculate_ema`; `ewm` validates `span >= 1`. -/
def emaBody (data : Series) (span : Nat) : Except String Series :=
  if span = 0 then .error "span must satisfy: span >= 1"
  else .ok (ewmMean span data)

/-- `calculate_ema` with its handler. -/
def calculate_ema (data : Series) (span : Nat) : Series :=
  match emaBody data span with
  | .ok r => r
  | .error _ => undefinedLike data

/-- `delta.where(delta > 0, 0)`: a NaN condition counts as False, so an
undefined delta is replaced by 0 as well. -/
def gainOf (o : Option ℚ) : ℚ :=
  match o with
  | some d => if d > 0 then d else 0
  | none => 0

/-- `-delta.where(delta < 0, 0)`. -/
def lossOf (o : Option ℚ) : ℚ :=
  match o with
  | some d => if d < 0 then -d else 0
  | none => 0

/-- `calculate_rsi` (its `try` body cannot raise on a series input). -/
def calculate_rsi (data : Series) (period : Nat) : Series :=
  let delta := diffO data
  let gain := rollingMean period (delta.map (fun o => some (gainOf o)))
  let loss := rollingMean period (delta.map (fun o => some (lossOf o)))
  let rs := divO gain loss
  seriesIdx rs.length (fun i =>
    match at? rs i with
    | some r => if 1 + r = 0 then none else some (100 - 100 / (1 + r))
    | none => none)

/-- The three-series result of `calculate_macd`. -/
structure MacdResult where
  MACD        : Series
  MACD_Signal : Series
  MACD_Hist   : Series

/-- The `try` body of `calculate_macd`. -/
def macdBody (data : Series) (fast slow signal : Nat) :
    Except String MacdResult :=
  if fast = 0 ∨ slow = 0 ∨ signal = 0 then
    .error "span must satisfy: span >= 1"
  else
    let exp1 := ewmMean fast data
    let exp2 := ewmMean slow data
    let macd := zipO (· - ·) exp1 exp2
    let macdSignal := ewmMean signal macd
    .ok ⟨macd, macdSignal, zipO (· - ·) macd macdSignal⟩

/-- `calculate_macd` with its handler. -/
def calculate_macd (data : Series) (fast slow signal : Nat) : MacdResult :=
  match macdBody data fast slow signal with
  | .ok r => r
  | .error _ => ⟨undefinedLike data, undefinedLike data, undefinedLike data⟩

/-- The three-series result of `calculate_bollinger_bands`. -/
structure BollingerResult where
  BB_Upper  : Series
  BB_Middle : Series
  BB_Lower  : Series

/-- `calculate_bollinger_bands` (rolling only; its body cannot raise on a
series input). -/
def calculate_bollinger_bands (data : Series) (period : Nat) (stdDev : ℚ) :
    BollingerResult :=
  let sma := calculate_sma data period
  let rollingStdS := rollingStd period data
  ⟨zipO (· + ·) sma (mapO (· * stdDev) rollingStdS),
   sma,
   zipO (· - ·) sma (mapO (· * stdDev) rollingStdS)⟩

/-- The two-series result of `calculate_stochastic`. -/
structure StochasticResult where
  Stoch_K : Series
  Stoch_D : Series

/-- `calculate_stochastic` (aligned high/low/close). -/
def calculate_stochastic (high low close : Series) (kPeriod dPeriod : Nat) :
    StochasticResult :=
  let lowestLow := rollingMin kPeriod low
  let highestHigh := rollingMax kPeriod high
  let kPercent :=
    mapO (100 * ·) (divO (zipO (· - ·) close lowestLow)
      (zipO (· - ·) highestHigh lowestLow))
  ⟨kPercent, rollingMean dPeriod kPercent⟩

/-- Row-wise `max(axis=1)` over three columns with the pandas default
`skipna=True`: the maximum of the defined entries, undefined when all
three are. -/
def max3O (a b c : Option ℚ) : Option ℚ :=
  match a, b, c with
  | some x, some y, some z => some (max x (max y z))
  | some x, some y, none => some (max x y)
  | some x, none, some z => some (max x z)
  | none, some y, some z => some (max y z)
  | some x, none, none => some x
  | none, some y, none => some y
  | none, none, some z => some z
  | none, none, none => none

/-- `calculate_atr` (aligned high/low/close). -/
def calculate_atr (high low close : Series) (period : Nat) : Series :=
  let prevClose := shiftO 1 close
  let tr1 := zipO (· - ·) high low
  let tr2 := mapO abs (zipO (· - ·) high prevClose)
  let tr3 := mapO abs (zipO (· - ·) low prevClose)
  let trueRange := seriesIdx high.length (fun i =>
    max3O (at? tr1 i) (at? tr2 i) (at? tr3 i))
  rollingMean period trueRange

/-- `calculate_williams_r` (aligned high/low/close). -/
def calculate_williams_r (high low close : Series) (period : Nat) : Series :=
  let highestHigh := rollingMax period high
  let lowestLow := rollingMin period low
  mapO ((-100) * ·) (divO (zipO (· - ·) highestHigh close)
    (zipO (· - ·) highestHigh lowestLow))

/-- Mean absolute deviation of a window,
`np.mean(np.abs(x - x.mean()))`. -/
def listMad (vs : List ℚ) : Option ℚ :=
  some (listMean (vs.map (fun v => |v - listMean vs|)))

/-- `calculate_cci` (aligned high/low/close). -/
def calculate_cci (high low close : Series) (period : Nat) : Series :=
  let typicalPrice := seriesIdx high.length (fun i =>
    match at? high i, at? low i, at? close i with
    | some h, some l, some c => some ((h + l + c) / 3)
    | _, _, _ => none)
  let smaTp := rollingMean period typicalPrice
  let mad := rollingAgg listMad period typicalPrice
  divO (zipO (· - ·) typicalPrice smaTp) (mapO (0.015 * ·) mad)

/-- `calculate_momentum`: `data / data.shift(period) - 1`, times 100. -/
def calculate_momentum (data : Series) (period : Nat) : Series :=
  mapO (· * 100) (mapO (· - 1) (divO data (shiftO period data)))

/-- `calculate_roc`: `(data - data.shift(period)) / data.shift(period)`,
times 100. -/
def calculate_roc (data : Series) (period : Nat) : Series :=
  mapO (· * 100) (divO (zipO (· - ·) data (shiftO period data))
    (shiftO period data))

end Indicators

/-! ## Persistence (signal_manager.py, _save_signals / _load_signals)

The stored file is a JSON array of signal records whose only non-scalar
field is the `datetime` timestamp, written with `datetime.isoformat()` and
read back with `datetime.fromisoformat()`.  JSON itself is lossless on the
remaining fields (strings and numbers), so the embedding models the
serialized form as a list of records with a string timestamp and the
isoformat encoding explicitly. -/

namespace Persist

/-- A Python `datetime` value (naive, as produced by `datetime.now()`). -/
structure PyDatetime where
  year        : Nat
  month       : Nat
  day         : Nat
  hour        : Nat
  minute      : Nat
  second      : Nat
  microsecond : Nat
deriving Repr, DecidableEq

def isLeap (y : Nat) : Bool :=
  y % 4 = 0 ∧ (y % 100 ≠ 0 ∨ y % 400 = 0)

def daysInMonth (y m : Nat) : Nat :=
  if m = 2 then (if isLeap y then 29 else 28)
  else if m = 4 ∨ m = 6 ∨ m = 9 ∨ m = 11 then 30
  else 31

/-- The field ranges `datetime` enforces on construction. -/
def validDT (d : PyDatetime) : Bool :=
  1 ≤ d.year ∧ d.year ≤ 9999 ∧
  1 ≤ d.month ∧ d.month ≤ 12 ∧
  1 ≤ d.day ∧ d.day ≤ daysInMonth d.year d.month ∧
  d.hour ≤ 23 ∧ d.minute ≤ 59 ∧ d.second ≤ 59 ∧ d.microsecond ≤ 999999

/-- Decimal digit character. -/
def dchar (d : Nat) : Char := Char.ofNat (48 + d)

/-- `%02d`, `%04d`, `%06d` renderings. -/
def pad2 (n : Nat) : List Char := [dchar (n / 10), dchar (n % 10)]

def pad4 (n : Nat) : List Char :=
  [dchar (n / 1000), dchar (n / 100 % 10), dchar (n / 10 % 10), dchar (n % 10)]

def pad6 (n : Nat) : List Char := pad2 (n / 10000) ++ pad4 (n % 10000)

/-- `datetime.isoformat()`: `YYYY-MM-DDTHH:MM:SS`, with `.ffffff` appended
exactly when the microsecond field is nonzero. -/
def isoformatChars (d : PyDatetime) : List Char :=
  pad4 d.year ++ '-' :: pad2 d.month ++ '-' :: pad2 d.day ++
  'T' :: pad2 d.hour ++ ':' :: pad2 d.minute ++ ':' :: pad2 d.second ++
  (if d.microsecond = 0 then [] else '.' :: pad6 d.microsecond)

def isoformat (d : PyDatetime) : String := String.mk (isoformatChars d)

/-- Decimal digit value of a character. -/
def digit? (c : Char) : Option Nat :=
  if 48 ≤ c.toNat ∧ c.toNat ≤ 57 then some (c.toNat - 48) else none

def val2 (a b : Char) : Option Nat := do
  let x ← digit? a
  let y ← digit? b
  some (10 * x + y)

def val4 (a b c d : Char) : Option Nat := do
  let x ← val2 a b
  let y ← val2 c d
  some (100 * x + y)

def val6 (a b c d e f : Char) : Option Nat := do
  let x ← val2 a b
  let y ← val4 c d e f
  some (10000 * x + y)

/-- The optional fractional-seconds suffix accepted by
`datetime.fromisoformat` on strings `isoformat` emits (empty, or a dot and
six digits). -/
def parseFraction : List Char → Option Nat
  | [] => some 0
  | cdot :: u1 :: u2 :: u3 :: u4 :: u5 :: u6 :: [] =>
      if cdot = '.' then val6 u1 u2 u3 u4 u5 u6 else none
  | _ => none

/-- `datetime.fromisoformat` on the `YYYY-MM-DDTHH:MM:SS[.ffffff]` shapes
`isoformat` produces; `none` models the `ValueError` raised on any other
string or on out-of-range fields. -/
def fromisoChars : List Char → Option PyDatetime
  | y1 :: y2 :: y3 :: y4 :: c1 :: m1 :: m2 :: c2 :: d1 :: d2 :: ct ::
    h1 :: h2 :: c3 :: n1 :: n2 :: c4 :: s1 :: s2 :: rest =>
      if c1 = '-' ∧ c2 = '-' ∧ ct = 'T' ∧ c3 = ':' ∧ c4 = ':' then do
        let y ← val4 y1 y2 y3 y4
        let mo ← val2 m1 m2
        let dd ← val2 d1 d2
        let h ← val2 h1 h2
        let mi ← val2 n1 n2
        let s ← val2 s1 s2
        let us ← parseFraction rest
        let cand : PyDatetime := ⟨y, mo, dd, h, mi, s, us⟩
        if validDT cand then some cand else none
      else none
  | _ => none

def fromisoformat (s : String) : Option PyDatetime := fromisoChars s.data

/-- An in-memory signal record as held in `self.signals` (the timestamp a
`datetime`, everything else JSON scalars). -/
structure SignalRec where
  pair              : String
  direction         : String
  confidence        : ℚ
  reason            : String
  entryTiming       : String
  expiryMinutes     : Nat
  entryDelaySeconds : Nat
  timestamp         : PyDatetime
deriving Repr, DecidableEq

/-- A serialized record: the same fields with the timestamp rendered as an
ISO-8601 string. -/
structure SavedRec where
  pair              : String
  direction         : String
  confidence        : ℚ
  reason            : String
  entryTiming       : String
  expiryMinutes     : Nat
  entryDelaySeconds : Nat
  timestamp         : String
deriving Repr, DecidableEq

/-- `_save_signals`: copy each record and replace its timestamp with
`timestamp.isoformat()`. -/
def saveSignals (sigs : List SignalRec) : List SavedRec :=
  sigs.map (fun s =>
    { pair := s.pair, direction := s.direction, confidence := s.confidence
      reason := s.reason, entryTiming := s.entryTiming
      expiryMinutes := s.expiryMinutes
      entryDelaySeconds := s.entryDelaySeconds
      timestamp := isoformat s.timestamp })

/-- `_load_signals`: parse every timestamp back with
`datetime.fromisoformat`; a single failure raises inside the loop and the
handler returns the empty history. -/
def loadSignals (data : List SavedRec) : List SignalRec :=
  match data.mapM (fun r =>
    (fromisoformat r.timestamp).map (fun t =>
      ({ pair := r.pair, direction := r.direction, confidence := r.confidence
         reason := r.reason, entryTiming := r.entryTiming
         expiryMinutes := r.expiryMinutes
         entryDelaySeconds := r.entryDelaySeconds
         timestamp := t } : SignalRec))) with
  | some l => l
  | none => []

end Persist

/-! ## Theorems -/

open SignalStore in
/-- C3.  `add_signal` rejects exactly when at least 3 stored signals have a
creation timestamp inside the trailing hour; a rejected call leaves the
history unchanged, and any other call (in particular one made after the
oldest of those signals has aged past one hour, dropping the count below 3)
is accepted with no further validation — the state update is always the
plain prepend-and-truncate.  (Stated for well-formed histories, every
record carrying a timestamp; the degenerate case is claim C10.) -/
theorem C3_rate_limit (now : Int) (signals : List StoredSignal)
    (sig : StoredSignal) (h : ∀ s ∈ signals, s.timestamp.isSome) :
    ((addSignal now signals sig).1 = false ↔
      maxSignalsPerHour ≤ (recentSignals now signals).length) ∧
    ((addSignal now signals sig).1 = false →
      (addSignal now signals sig).2 = signals) ∧
    ((addSignal now signals sig).1 = true →
      (addSignal now signals sig).2 = (sig :: signals).take 100) := by
  have hall : (signals.all (fun s => s.timestamp.isSome)) = true := by
    simpa [List.all_eq_true] using h
  by_cases hcnt : (recentSignals now signals).length < maxSignalsPerHour
  · simp [addSignal, canAddSignal, hall, hcnt]
  · simp [addSignal, canAddSignal, hall, hcnt]
    omega

/-- C3 witness: with three stored signals timestamped inside the trailing
hour, the fourth call is rejected and the history is untouched. -/
theorem C3_rate_limit_witness :
    (∀ s ∈ [(⟨some 1000, "EUR/USD", "BUY", 90⟩ : StoredSignal),
            ⟨some 2000, "EUR/USD", "SELL", 85⟩,
            ⟨some 3000, "GBP/USD", "BUY", 92⟩], s.timestamp.isSome) ∧
    (((SignalStore.addSignal 4000
        [⟨some 1000, "EUR/USD", "BUY", 90⟩,
         ⟨some 2000, "EUR/USD", "SELL", 85⟩,
         ⟨some 3000, "GBP/USD", "BUY", 92⟩]
        ⟨some 4000, "USD/JPY", "SELL", 88⟩).1 = false ↔
      SignalStore.maxSignalsPerHour ≤
        (SignalStore.recentSignals 4000
          [⟨some 1000, "EUR/USD", "BUY", 90⟩,
           ⟨some 2000, "EUR/USD", "SELL", 85⟩,
           ⟨some 3000, "GBP/USD", "BUY", 92⟩]).length) ∧
     ((SignalStore.addSignal 4000
        [⟨some 1000, "EUR/USD", "BUY", 90⟩,
         ⟨some 2000, "EUR/USD", "SELL", 85⟩,
         ⟨some 3000, "GBP/USD", "BUY", 92⟩]
        ⟨some 4000, "USD/JPY", "SELL", 88⟩).1 = false →
      (SignalStore.addSignal 4000
        [⟨some 1000, "EUR/USD", "BUY", 90⟩,
         ⟨some 2000, "EUR/USD", "SELL", 85⟩,
         ⟨some 3000, "GBP/USD", "BUY", 92⟩]
        ⟨some 4000, "USD/JPY", "SELL", 88⟩).2 =
        [⟨some 1000, "EUR/USD", "BUY", 90⟩,
         ⟨some 2000, "EUR/USD", "SELL", 85⟩,
         ⟨some 3000, "GBP/USD", "BUY", 92⟩]) ∧
     ((SignalStore.addSignal 4000
        [⟨some 1000, "EUR/USD", "BUY", 90⟩,
         ⟨some 2000, "EUR/USD", "SELL", 85⟩,
         ⟨some 3000, "GBP/USD", "BUY", 92⟩]
        ⟨some 4000, "USD/JPY", "SELL", 88⟩).1 = true →
      (SignalStore.addSignal 4000
        [⟨some 1000, "EUR/USD", "BUY", 90⟩,
         ⟨some 2000, "EUR/USD", "SELL", 85⟩,
         ⟨some 3000, "GBP/USD", "BUY", 92⟩]
        ⟨some 4000, "USD/JPY", "SELL", 88⟩).2 =
        ((⟨some 4000, "USD/JPY", "SELL", 88⟩ : StoredSignal) ::
         [⟨some 1000, "EUR/USD", "BUY", 90⟩,
          ⟨some 2000, "EUR/USD", "SELL", 85⟩,
          ⟨some 3000, "GBP/USD", "BUY", 92⟩]).take 100)) :=
  ⟨by decide, C3_rate_limit 4000 _ _ (by decide)⟩

set_option maxRecDepth 40000 in
open SignalStore in
/-- C4.  The history bound and ordering: an accepted `add_signal` call
always produces the prepend-and-truncate of the old history, the length
bound 100 is preserved by every call, and the concrete run of 105 accepted
insertions (timestamps one hour apart, so the rate limiter accepts each)
ends with exactly the 100 newest signals, newest-first. -/
theorem C4_history_invariant :
    (∀ (now : Int) (signals : List StoredSignal) (sig : StoredSignal),
      signals.length ≤ 100 →
        ((addSignal now signals sig).2.length ≤ 100 ∧
          ((addSignal now signals sig).1 = true →
            (addSignal now signals sig).2 = (sig :: signals).take 100))) ∧
    runAdds adds105 [] = ((List.range 105).map mkSig).reverse.take 100 ∧
    (runAdds adds105 []).length = 100 := by
  refine ⟨?_, ?_, ?_⟩
  · intro now signals sig hlen
    unfold addSignal
    by_cases hc : canAddSignal now signals
    · simp [hc]
    · simp [hc, hlen]
  · decide
  · decide

/-- C4 witness: the length hypothesis and state-update conclusion at the
empty history. -/
theorem C4_history_invariant_witness :
    ([] : List StoredSignal).length ≤ 100 ∧
    ((SignalStore.addSignal 0 [] ⟨some 0, "EUR/USD", "BUY", 90⟩).2.length ≤ 100 ∧
      ((SignalStore.addSignal 0 [] ⟨some 0, "EUR/USD", "BUY", 90⟩).1 = true →
        (SignalStore.addSignal 0 [] ⟨some 0, "EUR/USD", "BUY", 90⟩).2 =
          ((⟨some 0, "EUR/USD", "BUY", 90⟩ : StoredSignal) :: []).take 100)) :=
  ⟨by decide, C4_history_invariant.1 0 [] _ (by decide)⟩

open SignalStore in
/-- C10.  The rate limiter fails open: if some stored record has no
timestamp, the in-window count raises `KeyError`, `_can_add_signal`
returns `True`, and `add_signal` accepts and stores the new signal. -/
theorem C10_rate_limiter_fails_open (now : Int) (signals : List StoredSignal)
    (sig : StoredSignal) (h : ∃ s ∈ signals, s.timestamp = none) :
    canAddSignal now signals = true ∧
    (addSignal now signals sig).1 = true ∧
    (addSignal now signals sig).2 = (sig :: signals).take 100 := by
  have hall : (signals.all (fun s => s.timestamp.isSome)) = false := by
    rcases h with ⟨s, hs, hnone⟩
    simp [List.all_eq_true]
    exact ⟨s, hs, by simp [hnone]⟩
  have hcan : canAddSignal now signals = true := by
    simp [canAddSignal, hall]
  exact ⟨hcan, by simp [addSignal, hcan], by simp [addSignal, hcan]⟩

/-- C10 witness: a history holding three in-window signals and one record
without a timestamp — the next signal is accepted anyway. -/
theorem C10_rate_limiter_fails_open_witness :
    (∃ s ∈ [(⟨some 1000, "EUR/USD", "BUY", 90⟩ : StoredSignal),
            ⟨some 2000, "EUR/USD", "SELL", 85⟩,
            ⟨some 3000, "GBP/USD", "BUY", 92⟩,
            ⟨none, "AUD/USD", "BUY", 80⟩], s.timestamp = none) ∧
    (SignalStore.canAddSignal 4000
      [⟨some 1000, "EUR/USD", "BUY", 90⟩,
       ⟨some 2000, "EUR/USD", "SELL", 85⟩,
       ⟨some 3000, "GBP/USD", "BUY", 92⟩,
       ⟨none, "AUD/USD", "BUY", 80⟩] = true ∧
     (SignalStore.addSignal 4000
       [⟨some 1000, "EUR/USD", "BUY", 90⟩,
        ⟨some 2000, "EUR/USD", "SELL", 85⟩,
        ⟨some 3000, "GBP/USD", "BUY", 92⟩,
        ⟨none, "AUD/USD", "BUY", 80⟩]
       ⟨some 4000, "USD/JPY", "SELL", 88⟩).1 = true ∧
     (SignalStore.addSignal 4000
       [⟨some 1000, "EUR/USD", "BUY", 90⟩,
        ⟨some 2000, "EUR/USD", "SELL", 85⟩,
        ⟨some 3000, "GBP/USD", "BUY", 92⟩,
        ⟨none, "AUD/USD", "BUY", 80⟩]
       ⟨some 4000, "USD/JPY", "SELL", 88⟩).2 =
       ((⟨some 4000, "USD/JPY", "SELL", 88⟩ : StoredSignal) ::
        [⟨some 1000, "EUR/USD", "BUY", 90⟩,
         ⟨some 2000, "EUR/USD", "SELL", 85⟩,
         ⟨some 3000, "GBP/USD", "BUY", 92⟩,
         ⟨none, "AUD/USD", "BUY", 80⟩]).take 100) :=
  ⟨by decide, C10_rate_limiter_fails_open 4000 _ _ (by decide)⟩

/-! ### Scorer lemmas: behaviour of the rule blocks on a committed direction -/

open Engine

theorem maBlock_keeps (v : Vals) (st : ScoreState) (d : Direction)
    (h : st.direction = some d) :
    (maBlock v st).direction = some d ∧
    st.strength ≤ (maBlock v st).strength ∧
    (∃ t, (maBlock v st).reasons = st.reasons ++ t) := by
  unfold maBlock
  split_ifs with h1 h2 h3 h4 h5 h6 h7 h8 <;>
    refine ⟨?_, ?_, ?_⟩ <;>
      simp_all [fire, agrees]

theorem macdBlock_keeps (v : Vals) (st : ScoreState) (d : Direction)
    (h : st.direction = some d) :
    (macdBlock v st).direction = some d ∧
    st.strength ≤ (macdBlock v st).strength ∧
    (∃ t, (macdBlock v st).reasons = st.reasons ++ t) := by
  unfold macdBlock
  split_ifs with h1 h2 h3 h4 <;>
    refine ⟨?_, ?_, ?_⟩ <;>
      simp_all [fire, agrees]

theorem momentumBlock_keeps (v : Vals) (st : ScoreState) (d : Direction)
    (h : st.direction = some d) :
    (momentumBlock v st).direction = some d ∧
    st.strength ≤ (momentumBlock v st).strength ∧
    (∃ t, (momentumBlock v st).reasons = st.reasons ++ t) := by
  unfold momentumBlock
  split_ifs with h1 h2 h3 h4 <;>
    refine ⟨?_, ?_, ?_⟩ <;>
      simp_all [fire, agrees]

theorem volumeBlock_keeps (rv av : ℚ) (st : ScoreState) :
    (volumeBlock rv av st).direction = st.direction ∧
    st.strength ≤ (volumeBlock rv av st).strength ∧
    (∃ t, (volumeBlock rv av st).reasons = st.reasons ++ t) := by
  unfold volumeBlock
  split_ifs <;>
    refine ⟨rfl, by simp, ?_⟩ <;>
      first
        | exact ⟨_, rfl⟩
        | exact ⟨[], by simp⟩

theorem newsBlock_keeps (ns : Option ℚ) (st : ScoreState) (d : Direction)
    (h : st.direction = some d) :
    (newsBlock ns st).direction = some d ∧
    st.strength ≤ (newsBlock ns st).strength ∧
    (∃ t, (newsBlock ns st).reasons = st.reasons ++ t) := by
  cases ns with
  | none => exact ⟨h, le_refl _, ⟨[], by simp [newsBlock]⟩⟩
  | some q =>
      by_cases h1 : (0.3 : ℚ) < |q|
      · by_cases h2 : (0 < q ∧ d = Direction.buy) ∨ (q < 0 ∧ d = Direction.sell)
        · exact ⟨by simp [newsBlock, h1, h2, h],
            by simp [newsBlock, h1, h2, h],
            ⟨["Strong news alignment"], by simp [newsBlock, h1, h2, h]⟩⟩
        · exact ⟨by simp [newsBlock, h1, h2, h],
            by simp [newsBlock, h1, h2, h],
            ⟨[], by simp [newsBlock, h1, h2, h]⟩⟩
      · exact ⟨by simp [newsBlock, h1, h],
          by simp [newsBlock, h1],
          ⟨[], by simp [newsBlock, h1]⟩⟩

set_option maxRecDepth 10000 in
unseal Rat.add Rat.sub Rat.mul Rat.inv Rat.ofScientific in
/-- C1 counterexample.  The claim (no later rule ever flips a committed
direction, including the Bollinger rules) is false: with RSI = 15 the RSI
rule commits BUY (weight 40), and a fresh Bollinger breakdown then
overwrites the direction to SELL, adds its weight 35 and appends its
reason; the emitted end-to-end signal is a SELL built on a BUY-committed
battery. -/
theorem C1_counterexample :
    (Engine.rsiBlock
        (Engine.extractVals
          ⟨List.replicate 48 3 ++ [3, 1], some (List.replicate 50 1), "EURUSD=X"⟩
          ⟨false, [15], [], [], [], [], [10], [2], [0.5]⟩)
        Engine.initialState).direction = some Direction.buy ∧
    (Engine.bbBlock
        (Engine.extractVals
          ⟨List.replicate 48 3 ++ [3, 1], some (List.replicate 50 1), "EURUSD=X"⟩
          ⟨false, [15], [], [], [], [], [10], [2], [0.5]⟩)
        (Engine.rsiBlock
          (Engine.extractVals
            ⟨List.replicate 48 3 ++ [3, 1], some (List.replicate 50 1), "EURUSD=X"⟩
            ⟨false, [15], [], [], [], [], [10], [2], [0.5]⟩)
          Engine.initialState)) =
      ⟨75, some Direction.sell,
       ["RSI extreme oversold reversal", "Bollinger Band breakdown"],
       ["Strong reversal setup", "Fresh breakdown confirmed"]⟩ ∧
    Engine.generateBinaryTradingSignal
        (some ⟨List.replicate 48 3 ++ [3, 1], some (List.replicate 50 1), "EURUSD=X"⟩)
        ⟨false, [15], [], [], [], [], [10], [2], [0.5]⟩ 70 "M1" "Medium" none 15 =
      some { pair := "EUR/USD", direction := Direction.sell, confidence := 75,
             reason := "RSI extreme oversold reversal + Bollinger Band breakdown",
             entryTiming := "Strong reversal setup + Fresh breakdown confirmed",
             timeframeLabel := "M15", expiryMinutes := 15, entryDelaySeconds := 15,
             rsi := 15, macd := 0, price := 1, sessionVolatility := "Medium" } := by
  refine ⟨by decide, by decide, by decide⟩

/-- C1 (amended).  Once `signal_direction` is committed, every rule of the
MA, MACD, momentum and news blocks preserves it, and every one of their
rules whose direction conflicts with the committed one is skipped entirely
— the state is unchanged, so no weight is added and no reason or entry
string is appended.  Listed per trigger: fresh MA bullish cross against
SELL, fresh MA bearish cross against BUY (the claim's particular example),
MA bullish continuation against SELL, MA bearish continuation against BUY,
MACD bullish cross against SELL, MACD bearish cross against BUY, strong
bullish momentum against SELL, strong bearish momentum against BUY, and a
strong news sentiment whose sign disagrees with the committed direction.
The Bollinger block is the exception the counterexample exhibits: it
assigns the direction unconditionally. -/
theorem C1_direction_commitment (v : Vals) (st : ScoreState) (d : Direction)
    (h : st.direction = some d) :
    ((maBlock v st).direction = some d ∧
     (macdBlock v st).direction = some d ∧
     (momentumBlock v st).direction = some d ∧
     (∀ ns, (newsBlock ns st).direction = some d)) ∧
    ((d = Direction.sell → v.maLong < v.maShort → v.prevMaShort ≤ v.prevMaLong →
        maBlock v st = st) ∧
     (d = Direction.buy → v.maShort < v.maLong → v.prevMaLong ≤ v.prevMaShort →
        maBlock v st = st) ∧
     (d = Direction.sell → v.maLong < v.maShort → v.maShort < v.latestClose →
        v.prevClose ≤ v.maShort → maBlock v st = st) ∧
     (d = Direction.buy → v.maShort < v.maLong → v.latestClose < v.maShort →
        v.maShort ≤ v.prevClose → maBlock v st = st)) ∧
    ((d = Direction.sell → v.macdSignal < v.macd → v.prevMacd ≤ v.prevMacdSignal →
        macdBlock v st = st) ∧
     (d = Direction.buy → v.macd < v.macdSignal → v.prevMacdSignal ≤ v.prevMacd →
        macdBlock v st = st)) ∧
    ((d = Direction.sell → v.momentum = "Strong_Bullish" →
        momentumBlock v st = st) ∧
     (d = Direction.buy → v.momentum = "Strong_Bearish" →
        momentumBlock v st = st)) ∧
    (∀ ns : ℚ, (0.3 : ℚ) < |ns| →
      ¬((0 < ns ∧ d = Direction.buy) ∨ (ns < 0 ∧ d = Direction.sell)) →
      newsBlock (some ns) st = st) := by
  refine ⟨⟨(maBlock_keeps v st d h).1, (macdBlock_keeps v st d h).1,
    (momentumBlock_keeps v st d h).1, fun ns => (newsBlock_keeps ns st d h).1⟩,
    ⟨?_, ?_, ?_, ?_⟩, ⟨?_, ?_⟩, ⟨?_, ?_⟩, ?_⟩
  · -- fresh MA bullish cross against a committed SELL
    rintro rfl hm1 hm2
    unfold maBlock
    rw [if_pos ⟨hm1, hm2⟩, if_neg (by simp [agrees, h])]
  · -- fresh MA bearish cross against a committed BUY
    rintro rfl hm1 hm2
    have hnc1 : ¬(v.maShort > v.maLong ∧ v.prevMaShort ≤ v.prevMaLong) := by
      rintro ⟨a, _⟩
      exact absurd hm1 (not_lt.mpr a.le)
    unfold maBlock
    rw [if_neg hnc1, if_pos ⟨hm1, hm2⟩, if_neg (by simp [agrees, h])]
  · -- MA bullish continuation against a committed SELL
    rintro rfl hm1 hm2 hm3
    unfold maBlock
    by_cases hc1 : v.maShort > v.maLong ∧ v.prevMaShort ≤ v.prevMaLong
    · rw [if_pos hc1, if_neg (by simp [agrees, h])]
    · have hnc2 : ¬(v.maShort < v.maLong ∧ v.prevMaShort ≥ v.prevMaLong) := by
        rintro ⟨a, _⟩
        exact absurd hm1 (not_lt.mpr a.le)
      rw [if_neg hc1, if_neg hnc2, if_pos ⟨hm1, hm2, hm3⟩,
        if_neg (by simp [agrees, h])]
  · -- MA bearish continuation against a committed BUY
    rintro rfl hm1 hm2 hm3
    have hnc1 : ¬(v.maShort > v.maLong ∧ v.prevMaShort ≤ v.prevMaLong) := by
      rintro ⟨a, _⟩
      exact absurd hm1 (not_lt.mpr a.le)
    have hnc3 : ¬(v.maShort > v.maLong ∧ v.latestClose > v.maShort ∧
        v.prevClose ≤ v.maShort) := by
      rintro ⟨a, _⟩
      exact absurd hm1 (not_lt.mpr a.le)
    unfold maBlock
    by_cases hc2 : v.maShort < v.maLong ∧ v.prevMaShort ≥ v.prevMaLong
    · rw [if_neg hnc1, if_pos hc2, if_neg (by simp [agrees, h])]
    · rw [if_neg hnc1, if_neg hc2, if_neg hnc3, if_pos ⟨hm1, hm2, hm3⟩,
        if_neg (by simp [agrees, h])]
  · -- fresh MACD bullish cross against a committed SELL
    rintro rfl hm1 hm2
    unfold macdBlock
    rw [if_pos ⟨hm1, hm2⟩, if_neg (by simp [agrees, h])]
  · -- fresh MACD bearish cross against a committed BUY
    rintro rfl hm1 hm2
    have hnc1 : ¬(v.macd > v.macdSignal ∧ v.prevMacd ≤ v.prevMacdSignal) := by
      rintro ⟨a, _⟩
      exact absurd hm1 (not_lt.mpr a.le)
    unfold macdBlock
    rw [if_neg hnc1, if_pos ⟨hm1, hm2⟩, if_neg (by simp [agrees, h])]
  · -- strong bullish momentum against a committed SELL
    rintro rfl hm
    unfold momentumBlock
    rw [if_pos hm, if_neg (by simp [agrees, h])]
  · -- strong bearish momentum against a committed BUY
    rintro rfl hm
    have hne : ¬(v.momentum = "Strong_Bullish") := by
      rw [hm]
      decide
    unfold momentumBlock
    rw [if_neg hne, if_pos hm, if_neg (by simp [agrees, h])]
  · -- strong but conflicting news sentiment
    intro ns h1 h2
    have h2' : ¬((0 < ns ∧ st.direction = some Direction.buy) ∨
        (ns < 0 ∧ st.direction = some Direction.sell)) := by
      rw [h]
      simpa using h2
    have h3 : ¬(st.direction = none) := by simp [h]
    simp only [newsBlock]
    rw [if_pos h1, if_neg h2', if_neg h3]

/-- C1 witness: a BUY committed by RSI (weight 40) survives a fresh MA
bearish cross untouched. -/
theorem C1_direction_commitment_witness :
    ((⟨40, some Direction.buy, ["RSI extreme oversold reversal"],
       ["Strong reversal setup"]⟩ : ScoreState).direction = some Direction.buy) ∧
    Engine.maBlock
        ⟨1, 1, 15, 0, 0, 1, 2, 2, 2, 10, 0, 0.5, 0, 0, "Neutral"⟩
        ⟨40, some Direction.buy, ["RSI extreme oversold reversal"],
         ["Strong reversal setup"]⟩ =
      ⟨40, some Direction.buy, ["RSI extreme oversold reversal"],
       ["Strong reversal setup"]⟩ :=
  ⟨rfl,
    (C1_direction_commitment
      ⟨1, 1, 15, 0, 0, 1, 2, 2, 2, 10, 0, 0.5, 0, 0, "Neutral"⟩
      ⟨40, some Direction.buy, ["RSI extreme oversold reversal"],
       ["Strong reversal setup"]⟩
      Direction.buy rfl).2.1.2.1 rfl (by norm_num) (by norm_num)⟩


/-- The minimum-confirmations requirement is never more than 2. -/
theorem minConfirmations_le_two (tf : String) : minConfirmations tf ≤ 2 := by
  unfold minConfirmations
  split <;> omega

/-- Under the C2 scenario hypotheses the battery ends with direction BUY,
strength at least 100, and the three scenario reasons first. -/
theorem scoreBattery_c2 (v : Vals) (rv av : ℚ) (news : Option ℚ)
    (hrsi : v.rsi = 15) (hbb1 : v.bbUpper < v.latestClose)
    (hbb2 : v.prevClose ≤ v.bbUpper) (hma1 : v.maLong < v.maShort)
    (hma2 : v.prevMaShort ≤ v.prevMaLong) :
    (scoreBattery v rv av news).direction = some Direction.buy ∧
    100 ≤ (scoreBattery v rv av news).strength ∧
    ∃ t, (scoreBattery v rv av news).reasons =
      ["RSI extreme oversold reversal", "Bollinger Band breakout",
       "Fresh MA bullish cross"] ++ t := by
  have h0 : rsiBlock v initialState =
      ⟨40, some Direction.buy, ["RSI extreme oversold reversal"],
       ["Strong reversal setup"]⟩ := by
    unfold rsiBlock
    rw [if_pos (by rw [hrsi]; norm_num)]
    rfl
  have h1 : bbBlock v (rsiBlock v initialState) =
      ⟨75, some Direction.buy,
       ["RSI extreme oversold reversal", "Bollinger Band breakout"],
       ["Strong reversal setup", "Fresh breakout confirmed"]⟩ := by
    rw [h0]
    unfold bbBlock
    rw [if_pos ⟨hbb1, hbb2⟩]
    rfl
  have h2 : mainRules v =
      momentumBlock v (macdBlock v
        (⟨100, some Direction.buy,
          ["RSI extreme oversold reversal", "Bollinger Band breakout",
           "Fresh MA bullish cross"],
          ["Strong reversal setup", "Fresh breakout confirmed",
           "Trend change confirmed"]⟩ : ScoreState)) := by
    unfold mainRules
    rw [h1]
    unfold maBlock
    rw [if_pos ⟨hma1, hma2⟩]
    have : agrees ⟨75, some Direction.buy,
        ["RSI extreme oversold reversal", "Bollinger Band breakout"],
        ["Strong reversal setup", "Fresh breakout confirmed"]⟩
        Direction.buy := Or.inl rfl
    rw [if_pos this]
    rfl
  obtain ⟨d4, s4, t4, ht4⟩ := macdBlock_keeps v
    (⟨100, some Direction.buy,
      ["RSI extreme oversold reversal", "Bollinger Band breakout",
       "Fresh MA bullish cross"],
      ["Strong reversal setup", "Fresh breakout confirmed",
       "Trend change confirmed"]⟩ : ScoreState) Direction.buy rfl
  obtain ⟨d5, s5, t5, ht5⟩ := momentumBlock_keeps v _ Direction.buy d4
  obtain ⟨d6, s6, t6, ht6⟩ := volumeBlock_keeps rv av
    (momentumBlock v (macdBlock v
      (⟨100, some Direction.buy,
        ["RSI extreme oversold reversal", "Bollinger Band breakout",
         "Fresh MA bullish cross"],
        ["Strong reversal setup", "Fresh breakout confirmed",
         "Trend change confirmed"]⟩ : ScoreState)))
  rw [d5] at d6
  obtain ⟨d7, s7, t7, ht7⟩ := newsBlock_keeps news _ Direction.buy d6
  have hd : (scoreBattery v rv av news).direction = some Direction.buy := by
    unfold scoreBattery
    rw [h2]
    exact d7
  have hs : 100 ≤ (scoreBattery v rv av news).strength := by
    unfold scoreBattery
    rw [h2]
    calc (100 : Nat) ≤ _ := s4
    _ ≤ _ := s5
    _ ≤ _ := s6
    _ ≤ _ := s7
  have hr : ∃ t, (scoreBattery v rv av news).reasons =
      ["RSI extreme oversold reversal", "Bollinger Band breakout",
       "Fresh MA bullish cross"] ++ t := by
    refine ⟨t4 ++ t5 ++ t6 ++ t7, ?_⟩
    unfold scoreBattery
    rw [h2, ht7, ht6, ht5, ht4]
    simp [List.append_assoc]
  exact ⟨hd, hs, hr⟩

/-- C2.  For every ≥50-bar candle frame (with a volume column) and every
indicator snapshot whose extracted per-bar values show RSI = 15, a fresh
Bollinger breakout above the upper band and a fresh MA short/long bullish
cross, the scorer accumulates at least 40 + 35 + 25 = 100 strength: the
emitted signal exists, has direction BUY, clamped confidence exactly 100,
and its reason string is exactly the three triggered rule descriptions
joined in order — for every confidence threshold ≤ 100 and every timeframe
(the required reason count is at most 2 ≤ 3). -/
theorem C2_deterministic_scenario
    (data : MarketData) (ind : IndicatorSnapshot) (threshold : Nat)
    (tf vol : String) (news : Option ℚ) (delay : Nat) (vs : List ℚ)
    (hlen : 50 ≤ data.close.length)
    (hvol : data.volume = some vs)
    (hind : ind.isEmpty = false)
    (hrsi : (extractVals data ind).rsi = 15)
    (hbb1 : (extractVals data ind).bbUpper < (extractVals data ind).latestClose)
    (hbb2 : (extractVals data ind).prevClose ≤ (extractVals data ind).bbUpper)
    (hma1 : (extractVals data ind).maLong < (extractVals data ind).maShort)
    (hma2 : (extractVals data ind).prevMaShort ≤ (extractVals data ind).prevMaLong)
    (hthr : threshold ≤ 100) :
    ∃ sig, generateBinaryTradingSignal (some data) ind threshold tf vol news delay
        = some sig ∧
      sig.direction = Direction.buy ∧
      sig.confidence = 100 ∧
      sig.reason =
        "RSI extreme oversold reversal + Bollinger Band breakout + Fresh MA bullish cross" := by
  obtain ⟨hd, hs, t, ht⟩ := scoreBattery_c2 (extractVals data ind)
    (meanQ (tailK 3 vs)) (meanQ (tailK 20 vs)) news hrsi hbb1 hbb2 hma1 hma2
  have hne : data.close.isEmpty = false := by
    cases hc : data.close with
    | nil => rw [hc] at hlen; simp at hlen
    | cons a as => rfl
  have hguard : ¬ (data.close.isEmpty = true ∨ ind.isEmpty = true ∨
      data.close.length < 50) := by
    simp [hne, hind]
    omega
  have h20 : 20 < data.close.length := by omega
  have hgen : generateBinaryTradingSignal (some data) ind threshold tf vol news delay
      = buildSignal data (extractVals data ind)
          (scoreBattery (extractVals data ind)
            (meanQ (tailK 3 vs)) (meanQ (tailK 20 vs)) news)
          threshold tf vol delay := by
    have h50 : ¬ data.close.length < 50 := by omega
    unfold generateBinaryTradingSignal generateBodyE
    simp [hne, hind, h50, h20, hvol]
  have hmin : min (scoreBattery (extractVals data ind)
      (meanQ (tailK 3 vs)) (meanQ (tailK 20 vs)) news).strength 100 = 100 :=
    Nat.min_eq_right hs
  have hconf : threshold ≤ min (scoreBattery (extractVals data ind)
      (meanQ (tailK 3 vs)) (meanQ (tailK 20 vs)) news).strength 100 := by
    rw [hmin]; exact hthr
  have hcount : minConfirmations tf ≤ (scoreBattery (extractVals data ind)
      (meanQ (tailK 3 vs)) (meanQ (tailK 20 vs)) news).reasons.length := by
    rw [ht]
    refine le_trans (minConfirmations_le_two tf) ?_
    simp
  have htake : ((["RSI extreme oversold reversal", "Bollinger Band breakout",
      "Fresh MA bullish cross"] : List String) ++ t).take 3 =
      ["RSI extreme oversold reversal", "Bollinger Band breakout",
       "Fresh MA bullish cross"] := rfl
  have hbs : buildSignal data (extractVals data ind)
      (scoreBattery (extractVals data ind)
        (meanQ (tailK 3 vs)) (meanQ (tailK 20 vs)) news)
      threshold tf vol delay =
      some
        { pair := formatPair data.symbol
          direction := Direction.buy
          confidence := 100
          reason := "RSI extreme oversold reversal + Bollinger Band breakout + Fresh MA bullish cross"
          entryTiming := String.intercalate " + "
            (((scoreBattery (extractVals data ind)
              (meanQ (tailK 3 vs)) (meanQ (tailK 20 vs)) news).entries).take 2)
          timeframeLabel := "M" ++ toString (expiryFor tf vol)
          expiryMinutes := expiryFor tf vol
          entryDelaySeconds := delay
          rsi := (extractVals data ind).rsi
          macd := (extractVals data ind).macd
          price := (extractVals data ind).latestClose
          sessionVolatility := vol } := by
    unfold buildSignal
    simp only [hd]
    rw [if_pos ⟨hconf, hcount⟩]
    rw [hmin, ht, htake]
    rfl
  exact ⟨_, hgen.trans hbs, rfl, rfl, rfl⟩

/-- C2 witness: a concrete 50-bar frame with RSI 15, a fresh breakout above
the upper band (close 5 → 6 across band 5) and a fresh MA bullish cross
(short 1 → 3 across long 2) produces a BUY signal of confidence 100 with
the three rule descriptions as its reason. -/
theorem C2_deterministic_scenario_witness :
    (Engine.extractVals
        ⟨List.replicate 48 5 ++ [5, 6], some (List.replicate 50 1), "EURUSD=X"⟩
        ⟨false, [15], [], [], [1, 3], [2, 2], [5], [0], [0.5]⟩).rsi = 15 ∧
    (85 : Nat) ≤ 100 ∧
    (∃ sig,
      Engine.generateBinaryTradingSignal
          (some ⟨List.replicate 48 5 ++ [5, 6], some (List.replicate 50 1), "EURUSD=X"⟩)
          ⟨false, [15], [], [], [1, 3], [2, 2], [5], [0], [0.5]⟩
          85 "M1" "High" (some 0.5) 10 = some sig ∧
      sig.direction = Direction.buy ∧
      sig.confidence = 100 ∧
      sig.reason =
        "RSI extreme oversold reversal + Bollinger Band breakout + Fresh MA bullish cross") :=
  ⟨rfl, by decide,
    C2_deterministic_scenario
      ⟨List.replicate 48 5 ++ [5, 6], some (List.replicate 50 1), "EURUSD=X"⟩
      ⟨false, [15], [], [], [1, 3], [2, 2], [5], [0], [0.5]⟩
      85 "M1" "High" (some 0.5) 10 (List.replicate 50 1)
      (by decide) rfl rfl rfl (by decide) (by decide) (by decide) (by decide)
      (by decide)⟩

/-- C5.  With absent data (`None`) or fewer than 50 bars (the empty frame
included), the scorer returns no signal, whatever the indicators, session
tier, sentiment or timing parameters are. -/
theorem C5_short_history_no_signal (dataOpt : Option MarketData)
    (ind : IndicatorSnapshot) (threshold : Nat) (tf vol : String)
    (news : Option ℚ) (delay : Nat)
    (h : ∀ data, dataOpt = some data → data.close.length < 50) :
    generateBinaryTradingSignal dataOpt ind threshold tf vol news delay = none := by
  cases dataOpt with
  | none => rfl
  | some data =>
      have h50 : data.close.length < 50 := h data rfl
      unfold generateBinaryTradingSignal generateBodyE
      simp [h50]

/-- C5 witness: a 3-bar frame yields no signal, and so does absent data. -/
theorem C5_short_history_no_signal_witness :
    Engine.generateBinaryTradingSignal
        (some ⟨[1, 2, 3], some [1, 1, 1], "EURUSD=X"⟩)
        ⟨false, [15], [], [], [], [], [], [], []⟩ 0 "M1" "High" none 0 = none ∧
    Engine.generateBinaryTradingSignal none
        ⟨false, [15], [], [], [], [], [], [], []⟩ 0 "M1" "High" none 0 = none :=
  ⟨C5_short_history_no_signal _ _ 0 "M1" "High" none 0
      (fun data hd => by cases hd; decide),
   C5_short_history_no_signal _ _ 0 "M1" "High" none 0
      (fun data hd => by cases hd)⟩

/-- C6.  The scorer never propagates an internal error: whenever the body
raises, the wrapper returns `None`; in particular a ≥50-bar frame without
a volume column reaches the `data['Volume']` access, raises there, and the
caller still just receives `None`. -/
theorem C6_never_raises (dataOpt : Option MarketData)
    (ind : IndicatorSnapshot) (threshold : Nat) (tf vol : String)
    (news : Option ℚ) (delay : Nat) :
    ((∃ e, generateBodyE dataOpt ind threshold tf vol news delay = .error e) →
      generateBinaryTradingSignal dataOpt ind threshold tf vol news delay = none) ∧
    (∀ data, dataOpt = some data → data.volume = none → ind.isEmpty = false →
      50 ≤ data.close.length →
      (∃ e, generateBodyE dataOpt ind threshold tf vol news delay = .error e) ∧
      generateBinaryTradingSignal dataOpt ind threshold tf vol news delay = none) := by
  constructor
  · rintro ⟨e, he⟩
    unfold generateBinaryTradingSignal
    rw [he]
  · rintro data rfl hvol hind hlen
    have hne : data.close.isEmpty = false := by
      cases hc : data.close with
      | nil => rw [hc] at hlen; simp at hlen
      | cons a as => rfl
    have h50 : ¬ data.close.length < 50 := by omega
    have h20 : 20 < data.close.length := by omega
    have herr : generateBodyE (some data) ind threshold tf vol news delay =
        .error "KeyError: Volume" := by
      unfold generateBodyE
      simp [hne, hind, h50, h20, hvol]
    exact ⟨⟨_, herr⟩, by unfold generateBinaryTradingSignal; rw [herr]⟩

/-- C6 witness: a concrete 50-bar frame with no volume column makes the
body raise `KeyError` and the wrapper return `None`. -/
theorem C6_never_raises_witness :
    (∃ e, Engine.generateBodyE
        (some ⟨List.replicate 50 1, none, "EURUSD=X"⟩)
        ⟨false, [15], [], [], [], [], [], [], []⟩ 85 "M1" "High" none 0 =
          .error e) ∧
    Engine.generateBinaryTradingSignal
        (some ⟨List.replicate 50 1, none, "EURUSD=X"⟩)
        ⟨false, [15], [], [], [], [], [], [], []⟩ 85 "M1" "High" none 0 = none :=
  (C6_never_raises (some ⟨List.replicate 50 1, none, "EURUSD=X"⟩)
      ⟨false, [15], [], [], [], [], [], [], []⟩ 85 "M1" "High" none 0).2
    ⟨List.replicate 50 1, none, "EURUSD=X"⟩ rfl rfl rfl (by decide)

/-- C9.  The cache freshness test uses `timedelta.seconds` (the
seconds-within-a-day component) instead of the total elapsed seconds, so
while entries younger than 60 s are indeed hits and entries between 60 s
and one day are misses, an entry that is a full day plus less than a
minute old (here 86410 s = 1 day + 10 s) is wrongly served from the cache
without re-fetching — contradicting both the claimed 60-second
time-to-live and the `# 1 minute cache` comment in the code. -/
theorem C9_cache_ttl_bug :
    Cache.cacheFresh (30 * 1000000) = true ∧
    Cache.cacheFresh (70 * 1000000) = false ∧
    Cache.cacheFresh (86410 * 1000000) = true ∧
    60 * 1000000 ≤ 86410 * 1000000 ∧
    Cache.getMarketData (some (42, 0)) (86410 * 1000000) (some 99) =
      (some 42, some (42, 0), false) := by
  refine ⟨rfl, rfl, rfl, by omega, ?_⟩
  decide

/-! ### Indicator library lemmas -/

open Indicators

theorem seriesIdx_length (n : Nat) (f : Nat → Option ℚ) :
    (seriesIdx n f).length = n := by
  simp [seriesIdx]

theorem undefinedLike_length (xs : Series) :
    (undefinedLike xs).length = xs.length := by
  simp [undefinedLike, Series]

theorem rollingAgg_length (f : List ℚ → Option ℚ) (p : Nat) (xs : Series) :
    (rollingAgg f p xs).length = xs.length := by
  simp [rollingAgg, seriesIdx_length]

theorem rollingMean_length (p : Nat) (xs : Series) :
    (rollingMean p xs).length = xs.length := by
  simp [rollingMean, rollingAgg_length]

theorem rollingStd_length (p : Nat) (xs : Series) :
    (rollingStd p xs).length = xs.length := by
  simp [rollingStd, rollingAgg_length]

theorem rollingMin_length (p : Nat) (xs : Series) :
    (rollingMin p xs).length = xs.length := by
  simp [rollingMin, rollingAgg_length]

theorem rollingMax_length (p : Nat) (xs : Series) :
    (rollingMax p xs).length = xs.length := by
  simp [rollingMax, rollingAgg_length]

theorem zipO_length (f : ℚ → ℚ → ℚ) (a b : Series) :
    (zipO f a b).length = a.length := by
  simp [zipO, seriesIdx_length]

theorem mapO_length (f : ℚ → ℚ) (a : Series) :
    (mapO f a).length = a.length := by
  simp [mapO, seriesIdx_length]

theorem divO_length (a b : Series) : (divO a b).length = a.length := by
  simp [divO, seriesIdx_length]

theorem diffO_length (xs : Series) : (diffO xs).length = xs.length := by
  simp [diffO, seriesIdx_length]

theorem shiftO_length (k : Nat) (xs : Series) :
    (shiftO k xs).length = xs.length := by
  simp [shiftO, seriesIdx_length]

theorem ewmMean_length (span : Nat) (xs : Series) :
    (ewmMean span xs).length = xs.length := by
  simp [ewmMean, seriesIdx_length]

theorem map_series_length (xs : Series) (f : Option ℚ → Option ℚ) :
    (List.map f xs).length = xs.length := by
  simp [Series]

theorem calculate_ema_eq (data : Series) (span : Nat) :
    calculate_ema data span =
      if span = 0 then undefinedLike data else ewmMean span data := by
  unfold calculate_ema emaBody
  by_cases h : span = 0 <;> simp [h]

theorem calculate_macd_eq (data : Series) (fast slow signal : Nat) :
    calculate_macd data fast slow signal =
      if fast = 0 ∨ slow = 0 ∨ signal = 0 then
        ⟨undefinedLike data, undefinedLike data, undefinedLike data⟩
      else
        ⟨zipO (· - ·) (ewmMean fast data) (ewmMean slow data),
         ewmMean signal (zipO (· - ·) (ewmMean fast data) (ewmMean slow data)),
         zipO (· - ·) (zipO (· - ·) (ewmMean fast data) (ewmMean slow data))
           (ewmMean signal
             (zipO (· - ·) (ewmMean fast data) (ewmMean slow data)))⟩ := by
  unfold calculate_macd macdBody
  by_cases h : fast = 0 ∨ slow = 0 ∨ signal = 0 <;> simp [h]

/-- C7.  Every indicator function is total on series inputs, and every
result — including each component of a mapping result, and including the
all-undefined fallback produced when the body raises (`ewm` rejects a
non-positive span in `calculate_ema`/`calculate_macd`) — has exactly the
length (index) of its input; the multi-series indicators are stated for
aligned inputs, as their contract requires. -/
theorem C7_indicator_totality (data high low close : Series) (p q r : Nat)
    (k : ℚ) :
    (calculate_sma data p).length = data.length ∧
    (calculate_ema data p).length = data.length ∧
    (calculate_rsi data p).length = data.length ∧
    ((calculate_macd data p q r).MACD.length = data.length ∧
     (calculate_macd data p q r).MACD_Signal.length = data.length ∧
     (calculate_macd data p q r).MACD_Hist.length = data.length) ∧
    ((calculate_bollinger_bands data p k).BB_Upper.length = data.length ∧
     (calculate_bollinger_bands data p k).BB_Middle.length = data.length ∧
     (calculate_bollinger_bands data p k).BB_Lower.length = data.length) ∧
    (high.length = close.length → low.length = close.length →
      ((calculate_stochastic high low close p q).Stoch_K.length = close.length ∧
       (calculate_stochastic high low close p q).Stoch_D.length = close.length ∧
       (calculate_atr high low close p).length = close.length ∧
       (calculate_williams_r high low close p).length = close.length ∧
       (calculate_cci high low close p).length = close.length)) ∧
    (calculate_momentum data p).length = data.length ∧
    (calculate_roc data p).length = data.length ∧
    calculate_ema data 0 = List.replicate data.length (none : Option ℚ) ∧
    ((calculate_macd data 0 q r).MACD = List.replicate data.length (none : Option ℚ) ∧
     (calculate_macd data 0 q r).MACD_Signal = List.replicate data.length (none : Option ℚ) ∧
     (calculate_macd data 0 q r).MACD_Hist = List.replicate data.length (none : Option ℚ)) := by
  refine ⟨?_, ?_, ?_, ⟨?_, ?_, ?_⟩, ⟨?_, ?_, ?_⟩, ?_, ?_, ?_, ?_, ⟨?_, ?_, ?_⟩⟩
  · exact rollingMean_length p data
  · rw [calculate_ema_eq]
    by_cases h : p = 0 <;> simp [h, undefinedLike_length, ewmMean_length]
  · unfold calculate_rsi
    rw [seriesIdx_length, divO_length, rollingMean_length, map_series_length,
      diffO_length]
  · rw [calculate_macd_eq]
    by_cases h : p = 0 ∨ q = 0 ∨ r = 0 <;>
      simp [h, undefinedLike_length, ewmMean_length, zipO_length]
  · rw [calculate_macd_eq]
    by_cases h : p = 0 ∨ q = 0 ∨ r = 0 <;>
      simp [h, undefinedLike_length, ewmMean_length, zipO_length]
  · rw [calculate_macd_eq]
    by_cases h : p = 0 ∨ q = 0 ∨ r = 0 <;>
      simp [h, undefinedLike_length, ewmMean_length, zipO_length]
  · unfold calculate_bollinger_bands calculate_sma
    rw [zipO_length, rollingMean_length]
  · unfold calculate_bollinger_bands calculate_sma
    rw [rollingMean_length]
  · unfold calculate_bollinger_bands calculate_sma
    rw [zipO_length, rollingMean_length]
  · intro h1 h2
    unfold calculate_stochastic calculate_atr calculate_williams_r calculate_cci
    refine ⟨?_, ?_, ?_, ?_, ?_⟩ <;>
      simp [mapO_length, divO_length, zipO_length, rollingMean_length,
        rollingMin_length, rollingMax_length, rollingAgg_length,
        seriesIdx_length, h1, h2]
  · unfold calculate_momentum
    rw [mapO_length, mapO_length, divO_length]
  · unfold calculate_roc
    rw [mapO_length, divO_length, zipO_length]
  · rw [calculate_ema_eq]
    simp [undefinedLike]
  · rw [calculate_macd_eq]
    simp [undefinedLike]
  · rw [calculate_macd_eq]
    simp [undefinedLike]
  · rw [calculate_macd_eq]
    simp [undefinedLike]

/-- C7 witness: aligned two-bar high/low/close series satisfy the length
contract, and a zero ewm span makes `calculate_ema` return the
all-undefined series of the input's length. -/
theorem C7_indicator_totality_witness :
    ([some 2, some 3] : Series).length = ([some 2, some 2] : Series).length ∧
    ([some 1, some 1] : Series).length = ([some 2, some 2] : Series).length ∧
    (calculate_atr [some 2, some 3] [some 1, some 1] [some 2, some 2] 2).length
      = ([some 2, some 2] : Series).length ∧
    (calculate_stochastic [some 2, some 3] [some 1, some 1] [some 2, some 2]
      2 2).Stoch_K.length = ([some 2, some 2] : Series).length ∧
    calculate_ema [some 5] 0 = [none] ∧
    (calculate_sma [some 4, none] 2).length = 2 :=
  have T := C7_indicator_totality [some 4, none] [some 2, some 3]
    [some 1, some 1] [some 2, some 2] 2 2 2 2
  have A := T.2.2.2.2.2.1 rfl rfl
  ⟨rfl, rfl, A.2.2.1, A.1,
    C7_indicator_totality [some 5] [] [] [] 2 2 2 2 |>.2.2.2.2.2.2.2.2.1,
    T.1⟩

/-! ### Persistence lemmas -/

theorem digit?_dchar (d : Nat) (h : d < 10) :
    Persist.digit? (Persist.dchar d) = some d := by
  interval_cases d <;> rfl

theorem val2_digits (a b : Nat) (ha : a < 10) (hb : b < 10) :
    Persist.val2 (Persist.dchar a) (Persist.dchar b) = some (10 * a + b) := by
  simp [Persist.val2, digit?_dchar a ha, digit?_dchar b hb]

theorem val2_pads (n : Nat) (h : n < 100) :
    Persist.val2 (Persist.dchar (n / 10)) (Persist.dchar (n % 10)) = some n := by
  rw [val2_digits _ _ (by omega) (by omega)]
  exact congrArg some (Nat.div_add_mod n 10)

theorem val4_pads (n : Nat) (h : n < 10000) :
    Persist.val4 (Persist.dchar (n / 1000)) (Persist.dchar (n / 100 % 10))
      (Persist.dchar (n / 10 % 10)) (Persist.dchar (n % 10)) = some n := by
  unfold Persist.val4
  rw [val2_digits _ _ (by omega) (by omega), val2_digits _ _ (by omega) (by omega)]
  simp
  omega

theorem val6_pads (n : Nat) (h : n < 1000000) :
    Persist.val6 (Persist.dchar (n / 10000 / 10)) (Persist.dchar (n / 10000 % 10))
      (Persist.dchar (n % 10000 / 1000)) (Persist.dchar (n % 10000 / 100 % 10))
      (Persist.dchar (n % 10000 / 10 % 10)) (Persist.dchar (n % 10000 % 10)) =
      some n := by
  unfold Persist.val6
  rw [val2_pads (n / 10000) (by omega), val4_pads (n % 10000) (by omega)]
  simp
  omega

theorem daysInMonth_le (y m : Nat) : Persist.daysInMonth y m ≤ 31 := by
  unfold Persist.daysInMonth
  split_ifs <;> omega

theorem fromiso_isoformat (d : Persist.PyDatetime)
    (h : Persist.validDT d = true) :
    Persist.fromisoformat (Persist.isoformat d) = some d := by
  obtain ⟨y, mo, dd, hh, mi, ss, us⟩ := d
  have hp : 1 ≤ y ∧ y ≤ 9999 ∧ 1 ≤ mo ∧ mo ≤ 12 ∧ 1 ≤ dd ∧
      dd ≤ Persist.daysInMonth y mo ∧ hh ≤ 23 ∧ mi ≤ 59 ∧ ss ≤ 59 ∧
      us ≤ 999999 := by
    simpa [Persist.validDT] using h
  obtain ⟨h1, h2, h3, h4, h5, h6, h7, h8, h9, h10⟩ := hp
  unfold Persist.fromisoformat Persist.isoformat
  show Persist.fromisoChars (Persist.isoformatChars ⟨y, mo, dd, hh, mi, ss, us⟩)
      = some ⟨y, mo, dd, hh, mi, ss, us⟩
  unfold Persist.isoformatChars Persist.pad4 Persist.pad2 Persist.pad6
  have hdd : dd < 100 := by
    have := daysInMonth_le y mo
    omega
  by_cases hus : us = 0
  · subst hus
    simp only [if_pos, List.cons_append, List.nil_append, ite_true]
    unfold Persist.fromisoChars
    simp only [true_and, and_self, ite_true]
    rw [val4_pads y (by omega), val2_pads mo (by omega), val2_pads dd hdd,
      val2_pads hh (by omega), val2_pads mi (by omega), val2_pads ss (by omega)]
    simp [Persist.parseFraction, h]
  · simp only [if_neg hus, List.cons_append, List.nil_append]
    unfold Persist.fromisoChars
    simp only [true_and, and_self, ite_true]
    rw [val4_pads y (by omega), val2_pads mo (by omega), val2_pads dd hdd,
      val2_pads hh (by omega), val2_pads mi (by omega), val2_pads ss (by omega)]
    simp [Persist.parseFraction]
    unfold Persist.pad2 Persist.pad4
    simp only [List.cons_append, List.nil_append]
    rw [val6_pads us (by omega)]
    simp [h]

/-- C8.  Saving the signal history and loading it back reproduces the
identical ordered list of records, timestamps included at full microsecond
precision (every `datetime` the process can construct satisfies
`validDT`). -/
theorem C8_persistence_roundtrip (sigs : List Persist.SignalRec)
    (h : ∀ s ∈ sigs, Persist.validDT s.timestamp = true) :
    Persist.loadSignals (Persist.saveSignals sigs) = sigs := by
  unfold Persist.loadSignals
  have hmap : (Persist.saveSignals sigs).mapM (fun r =>
      (Persist.fromisoformat r.timestamp).map (fun t =>
        ({ pair := r.pair, direction := r.direction, confidence := r.confidence
           reason := r.reason, entryTiming := r.entryTiming
           expiryMinutes := r.expiryMinutes
           entryDelaySeconds := r.entryDelaySeconds
           timestamp := t } : Persist.SignalRec))) = some sigs := by
    induction sigs with
    | nil => rfl
    | cons a as ih =>
        have hv := h a (by simp)
        have ih' := ih (fun s hs => h s (by simp [hs]))
        simp only [Persist.saveSignals, List.map_cons, List.mapM_cons,
          fromiso_isoformat a.timestamp hv, Option.map_some]
        simp only [Persist.saveSignals, List.map] at ih'
        rw [ih']
        rfl
  rw [hmap]

/-- C8 witness: a two-record history (one timestamp with microseconds, one
without) survives the save/load round trip unchanged. -/
theorem C8_persistence_roundtrip_witness :
    (∀ s ∈ [({ pair := "EUR/USD", direction := "BUY", confidence := 91,
               reason := "RSI extreme oversold reversal",
               entryTiming := "Strong reversal setup", expiryMinutes := 1,
               entryDelaySeconds := 10,
               timestamp := ⟨2026, 10, 12, 23, 59, 58, 123456⟩ } : Persist.SignalRec),
             { pair := "GBP/USD", direction := "SELL", confidence := 86,
               reason := "Bollinger Band breakdown",
               entryTiming := "Fresh breakdown confirmed", expiryMinutes := 5,
               entryDelaySeconds := 30,
               timestamp := ⟨2024, 2, 29, 0, 0, 0, 0⟩ }],
      Persist.validDT s.timestamp = true) ∧
    Persist.loadSignals (Persist.saveSignals
      [{ pair := "EUR/USD", direction := "BUY", confidence := 91,
         reason := "RSI extreme oversold reversal",
         entryTiming := "Strong reversal setup", expiryMinutes := 1,
         entryDelaySeconds := 10,
         timestamp := ⟨2026, 10, 12, 23, 59, 58, 123456⟩ },
       { pair := "GBP/USD", direction := "SELL", confidence := 86,
         reason := "Bollinger Band breakdown",
         entryTiming := "Fresh breakdown confirmed", expiryMinutes := 5,
         entryDelaySeconds := 30,
         timestamp := ⟨2024, 2, 29, 0, 0, 0, 0⟩ }]) =
      [{ pair := "EUR/USD", direction := "BUY", confidence := 91,
         reason := "RSI extreme oversold reversal",
         entryTiming := "Strong reversal setup", expiryMinutes := 1,
         entryDelaySeconds := 10,
         timestamp := ⟨2026, 10, 12, 23, 59, 58, 123456⟩ },
       { pair := "GBP/USD", direction := "SELL", confidence := 86,
         reason := "Bollinger Band breakdown",
         entryTiming := "Fresh breakdown confirmed", expiryMinutes := 5,
         entryDelaySeconds := 30,
         timestamp := ⟨2024, 2, 29, 0, 0, 0, 0⟩ }] :=
  ⟨by decide, C8_persistence_roundtrip _ (by decide)⟩
